import Mathlib

/-!
Shallow embedding of the node-drayton-wiser client module (`src/index.js`,
provided as `src/unnamed/part_004`): the room lookup helpers, the
device-to-room map, `getFull`, the monitor loop, `setSystemMode` and
`setRoomMode`, together with theorems checking the natural-language
specification against this embedding.

Modelling conventions:
* Temperatures (°C and controller tenths-of-a-degree units) are rationals.
* JavaScript objects used as string/number keyed maps become association
  lists; assignment replaces in place an existing key and appends a new one,
  `delete` filters the key out.
* `async` functions that can resolve or reject become functions returning an
  explicit result value; the HTTP transport outcome of each `axios` call is an
  explicit parameter (`FetchOutcome` / the `sendOk` flag).
* Runtime exceptions that the surrounding JS code does not catch
  (`TypeError` from a property access on `undefined`, the `ReferenceError`
  from the undefined `servicePath` identifier in `setSystemMode`) are modelled
  explicitly as error results.
-/

namespace NodeDraytonWiser

/-- Minimum allowed setpoint temperature (°C), `TEMP_MINIMUM` in the source. -/
def TEMP_MINIMUM : Rat := 5

/-- Maximum allowed setpoint temperature (°C), `TEMP_MAXIMUM` in the source. -/
def TEMP_MAXIMUM : Rat := 30

/-- Wiser "off" setpoint temperature (°C), `TEMP_OFF` in the source. -/
def TEMP_OFF : Rat := -20

/-- Default setpoint temperature for room boost override (°C). -/
def BOOST_DEFAULT_TEMP : Rat := 20

/-- Default duration for room boost override (minutes). -/
def BOOST_DEFAULT_DURATION : Rat := 30

/-- Scalar JSON values as they appear in entity field maps. -/
inductive Value where
  | str (s : String)
  | num (q : Rat)
  | bool (b : Bool)
  | null
  deriving Repr, DecidableEq

/-- An entity record viewed as a JS object: field name to value. -/
abbrev FieldMap := List (String × Value)

/-- A `Room` record of the full snapshot, with the fields the module reads. -/
structure Room where
  id : Int
  Name : String
  ScheduledSetPoint : Rat
  SmartValveIds : List Int
  RoomStatId : Option Int
  SmartPlugIds : List Int
  deriving Repr, DecidableEq

/-- The `System` entity: only the two volatile clock fields that the monitor
deletes are tracked, plus the remaining fields as a generic map. -/
structure SystemInfo where
  UnixTime : Option Value
  LocalDateAndTime : Option Value
  rest : FieldMap
  deriving Repr, DecidableEq

/-- A full controller snapshot (`/data/domain/`), with the parts the module
dereferences by name. -/
structure Snapshot where
  System : SystemInfo
  Room : List Room
  deriving Repr, DecidableEq

/-- One entry of the device-to-room map built by `doRoomMap`. -/
structure RoomMapEntry where
  roomId : Int
  roomName : String
  type : String
  deriving Repr, DecidableEq

/-- Diagnostics written with `console.warn` / `console.info`. -/
inductive LogMsg where
  | warnRoomIdNotFound (id : Int)
  | warnRoomIdNotUnique (id : Int) (count : Nat)
  | warnRoomNameNotFound (name : String)
  | warnRoomNameNotUnique (name : String) (count : Nat)
  | infoTempTooLow (requested : Rat)
  | infoTempTooHigh (requested : Rat)
  | warnMaxBoostTooHigh
  deriving Repr, DecidableEq

/-- Uncaught JavaScript runtime errors that the model tracks. -/
inductive JsError where
  | typeError
  | referenceError
  deriving Repr, DecidableEq

/-- Function `getRoom(roomId)`: filters `saved.Room` on `room.id === roomId` and
returns the first match (`rooms[0]`) or `null`, warning on not-found and on
ambiguity.  When `saved` is still `undefined` (no successful full fetch yet),
the property access `saved.Room` throws a `TypeError`. -/
def getRoom (saved : Option Snapshot) (roomId : Int) :
    Except JsError (Option Room × List LogMsg) :=
  match saved with
  | none => .error .typeError
  | some s =>
      let rooms := s.Room.filter (fun room => room.id == roomId)
      if rooms.length < 1 then
        .ok (none, [.warnRoomIdNotFound roomId])
      else
        .ok (rooms.head?,
             if rooms.length > 1 then [.warnRoomIdNotUnique roomId rooms.length] else [])

/-- Function `getRoomByName(roomName)`: same shape as `getRoom` but filtering on
`room.Name === roomName`. -/
def getRoomByName (saved : Option Snapshot) (roomName : String) :
    Except JsError (Option Room × List LogMsg) :=
  match saved with
  | none => .error .typeError
  | some s =>
      let rooms := s.Room.filter (fun room => room.Name == roomName)
      if rooms.length < 1 then
        .ok (none, [.warnRoomNameNotFound roomName])
      else
        .ok (rooms.head?,
             if rooms.length > 1 then [.warnRoomNameNotUnique roomName rooms.length] else [])

/-- JS-object style keyed update: replace the value of an existing key in
place, append a fresh key at the end. -/
def objSet {α : Type} [BEq α] {β : Type} (k : α) (v : β)
    (m : List (α × β)) : List (α × β) :=
  if m.any (fun p => p.1 == k) then
    m.map (fun p => if p.1 == k then (k, v) else p)
  else
    m ++ [(k, v)]

/-- Function `doRoomMap()`: rebuild the device-id-to-room map from the rooms of the
saved snapshot (SmartValves, then the RoomStat, then SmartPlugs, per room). -/
def doRoomMap (rooms : List Room) : List (Int × RoomMapEntry) :=
  rooms.foldl (fun acc room =>
    let acc := room.SmartValveIds.foldl
      (fun a trvId => objSet trvId ⟨room.id, room.Name, "SmartValve"⟩ a) acc
    let acc :=
      match room.RoomStatId with
      | some statId => objSet statId ⟨room.id, room.Name, "RoomStat"⟩ acc
      | none => acc
    room.SmartPlugIds.foldl
      (fun a plugId => objSet plugId ⟨room.id, room.Name, "SmartPlug"⟩ a) acc) []

/-- Index entries of the structural diff: one per changed entity type, each
holding the changed entities keyed by their index in the type's array. -/
abbrev GenDiff := List (String × List (Nat × FieldMap))

/-- A snapshot viewed generically, as the diff loop reads it:
entity-type name to array of entity field maps. -/
abbrev GenEnts := List (String × List FieldMap)

/-- A change record as built for the `wiserChange` event. -/
structure ChangeRecord where
  monitorRef : String
  type : String
  idx : Nat
  id : Option Value
  changes : FieldMap
  prevFields : List (String × Option Value)
  room : Option Value
  deriving Repr, DecidableEq

/-- Outcome of one HTTP GET of the full snapshot (the `axios.get` promise). -/
inductive FetchOutcome where
  | failure (status : Nat)
  | success (d : Snapshot)
  deriving Repr, DecidableEq

/-- What `getFull` resolves with: either the saved full data or the
`\x7b'error': error\x7d` object built in its catch block. -/
inductive GetFullResult where
  | data (d : Snapshot)
  | errObj (status : Nat)
  deriving Repr, DecidableEq

/-- Events emitted on the module's `eventEmitter` that the claims observe.
`wiserError` carries its optional `monitorRef` property. -/
inductive Event where
  | wiserFullUpdate (d : Snapshot)
  | wiserPing (monitorRef : String) (initialRun : Bool)
  | wiserChange (rec : ChangeRecord)
  | wiserError (monitorRef : Option String)
  | wiserMonitorRef (monitorRef : String) (timer : Nat)
  | wiserMonitorRemoved (monitorRef : String)
  deriving Repr, DecidableEq

/-- The module's private mutable state.  Repeating timers are identified by
the id handed out by `setInterval`; `nextTimer` is the next fresh id and
`activeTimers` the ids of the intervals not yet cleared. -/
structure WiserState where
  saved : Option Snapshot
  roomMap : List (Int × RoomMapEntry)
  prev : Option Snapshot
  dataDiff : GenDiff
  registry : List (String × Nat)
  activeTimers : List Nat
  nextTimer : Nat
  maxBoost : Rat
  deriving Repr, DecidableEq

/-- The state right after module load: nothing fetched, no monitors, and
`settings.maxBoost = BOOST_DEFAULT_TEMP`. -/
def initState : WiserState :=
  { saved := none, roomMap := [], prev := none, dataDiff := [],
    registry := [], activeTimers := [], nextTimer := 0,
    maxBoost := BOOST_DEFAULT_TEMP }

/-- Function `getFull()`: on transport failure the catch block resolves with the
error-only object and touches no state; on success it stores the snapshot,
rebuilds the room map and emits `wiserFullUpdate`. -/
def getFull (st : WiserState) (fetch : FetchOutcome) :
    WiserState × GetFullResult × List Event :=
  match fetch with
  | .failure status => (st, .errObj status, [])
  | .success d =>
      ({ st with saved := some d, roomMap := doRoomMap d.Room },
       .data d, [.wiserFullUpdate d])

/-- Function `getMonitorRef(refName)`: plain keyed lookup in `wiserMonitorRefs`
(the try/catch in the source can never fire for an object access). -/
def getMonitorRef (refName : String) (st : WiserState) : Option Nat :=
  st.registry.lookup refName

/-- Function `removeMonitor(ref)`: if a handle exists, clear its interval, delete the
registry entry and emit `wiserMonitorRemoved`; otherwise do nothing. -/
def removeMonitor (r : String) (st : WiserState) : WiserState × List Event :=
  match getMonitorRef r st with
  | some t =>
      ({ st with activeTimers := st.activeTimers.filter (fun u => u ≠ t),
                 registry := st.registry.filter (fun p => p.1 ≠ r) },
       [.wiserMonitorRemoved r])
  | none => (st, [])

/-- Strip the volatile clock fields, as the monitor's
`delete res.System.UnixTime; delete res.System.LocalDateAndTime` does. -/
def stripSystem (d : Snapshot) : Snapshot :=
  { d with System := { d.System with UnixTime := none, LocalDateAndTime := none } }

/-- Function `monitor(ref)`: cancel any monitor already registered under `ref`, then
run the initial `getFull`.  `getFull` resolves even on transport failure, so
the `then` branch always runs: it emits `wiserPing` and then dereferences
`res.System`, which on the error-only object throws a `TypeError`; that
rejection lands in the outer catch, which emits a `wiserError` carrying no
`monitorRef`.  On success the stripped snapshot is stored as `prev` (and,
through object aliasing, as `saved`), a repeating interval is created and the
`wiserMonitorRef` event registers the handle via the built-in listener.
The initial fetch is an explicit parameter; one call of this function covers
the whole initial run, so successive calls are serialised. -/
def monitor (r : String) (fetch : FetchOutcome) (st : WiserState) :
    WiserState × List Event :=
  let rm := removeMonitor r st
  let gf := getFull rm.1 fetch
  match gf.2.1 with
  | .errObj _ =>
      (gf.1, rm.2 ++ gf.2.2 ++ [.wiserPing r true, .wiserError none])
  | .data d =>
      let d' := stripSystem d
      let t := gf.1.nextTimer
      let st3 := { gf.1 with saved := some d', prev := some d',
                             activeTimers := gf.1.activeTimers ++ [t],
                             nextTimer := t + 1 }
      let st4 := { st3 with registry := objSet r t st3.registry }
      (st4, rm.2 ++ gf.2.2 ++ [.wiserPing r true, .wiserMonitorRef r t])

/-- The fields deleted from every field-delta before deciding whether to emit
`wiserChange`. -/
def noiseFields : List String :=
  ["ReceptionOfController", "ReceptionOfDevice", "PendingZigbeeMessageMask"]

/-- The three `delete data.…` statements of the tick loop. -/
def stripNoise (fm : FieldMap) : FieldMap :=
  fm.filter (fun p => ¬ noiseFields.contains p.1)

/-- Reading `res[type][i]` on the generic view of a snapshot. -/
def lookupEnt (ents : GenEnts) (ty : String) (i : Nat) : Option FieldMap :=
  (ents.lookup ty).bind (fun l => l.get? i)

/-- The body of the tick's double `forEach` over `dataDiff` (lines 516-571):
per changed entity, delete the noise fields, suppress the record if nothing
remains, otherwise build the `wiserChange` record with the current id, the
previous values of the changed fields, and the room name (directly for Room
changes, else via the device-to-room map). -/
def processDiff (r : String) (diff : GenDiff) (resEnts prevEnts : GenEnts)
    (roomMap : List (Int × RoomMapEntry)) : List ChangeRecord :=
  diff.flatMap (fun tyItem =>
    tyItem.2.filterMap (fun ent =>
      let data := stripNoise ent.2
      if data.isEmpty then none
      else
        let cur := lookupEnt resEnts tyItem.1 ent.1
        let curId := cur.bind (fun fm => fm.lookup "id")
        let prevData := data.map (fun p =>
          (p.1, (lookupEnt prevEnts tyItem.1 ent.1).bind (fun fm => fm.lookup p.1)))
        let room :=
          if tyItem.1 == "Room" then cur.bind (fun fm => fm.lookup "Name")
          else
            match curId with
            | some (.num q) =>
                if q.den == 1 then
                  (roomMap.lookup q.num).map (fun e => Value.str e.roomName)
                else none
            | _ => none
        some { monitorRef := r, type := tyItem.1, idx := ent.1, id := curId,
               changes := data, prevFields := prevData, room := room }))

/-- One tick of the repeating interval created by `monitor`.  As in the
initial run, a transport failure surfaces as the error-only object: the
`then` branch emits `wiserPing` and then throws on `res.System`, and the
tick's catch emits `wiserError` tagged with the monitor's ref; nothing else
changes, and in particular the interval itself is untouched.  On success the
diff against `prev` is computed by the external `updatedDiff` library
(supplied here as the oracle `diffOf`, with `genView` the generic reading of
a snapshot used by the record-building loop), change records are emitted, and
`prev` is replaced by the new stripped snapshot. -/
def monitorTick (r : String) (fetch : FetchOutcome)
    (diffOf : Option Snapshot → Snapshot → GenDiff)
    (genView : Snapshot → GenEnts) (st : WiserState) :
    WiserState × List Event :=
  let gf := getFull st fetch
  match gf.2.1 with
  | .errObj _ =>
      (gf.1, gf.2.2 ++ [.wiserPing r false, .wiserError (some r)])
  | .data d =>
      let d' := stripSystem d
      let diff := diffOf gf.1.prev d'
      let prevEnts :=
        match gf.1.prev with
        | some p => genView p
        | none => []
      let recs := processDiff r diff (genView d') prevEnts gf.1.roomMap
      ({ gf.1 with saved := some d', prev := some d', dataDiff := diff },
       gf.2.2 ++ [.wiserPing r false] ++ recs.map .wiserChange)

/-- Convert from °C to wiser temperature (×10). -/
def toWiserTemp (degC : Rat) : Rat := degC * 10

/-- ASCII lower-casing of one character (the case `toLowerCase()` performs on
the mode names used here). -/
def lowerChar (c : Char) : Char :=
  if 'A' ≤ c ∧ c ≤ 'Z' then Char.ofNat (c.toNat + 32) else c

/-- Model of `String.prototype.toLowerCase()` on ASCII strings. -/
def toLowerCase (s : String) : String := String.mk (s.data.map lowerChar)

/-- The `SystemOverrideType` lookup table. -/
def SystemOverrideType : String → Option Nat
  | "normal" => some 0
  | "away" => some 2
  | "bootAllRooms" => some 4
  | "cancelAllOverrides" => some 5
  | _ => none

/-- A PATCH that `setSystemMode` would send. -/
structure SysPatch where
  url : String
  overrideType : Option Nat
  deriving Repr, DecidableEq

/-- What the `setSystemMode` promise resolves with. -/
inductive SysResult where
  | errObj (e : JsError)
  | resolved (p : SysPatch)
  deriving Repr, DecidableEq

/-- Function `setSystemMode(overrideMode)`: the payload is built from the
`SystemOverrideType` table (with no check that the name is recognised), and
the request line reads `servicePath['system']` — but `servicePath` is not a
defined identifier anywhere in the module (the table is named
`servicePaths`), so evaluating the first argument of `axios.patch` throws a
`ReferenceError` inside the try block.  The catch resolves with the
error-only object; no HTTP request is ever issued, for recognised and for
unrecognised mode names alike. -/
def setSystemMode (overrideMode : String) : SysResult × List SysPatch :=
  let _payloadType := SystemOverrideType overrideMode
  (.errObj .referenceError, [])

/-- The room argument of `setRoomMode` after the source's own normalisation:
`undefined`, `null` and `''` are `missing`; a number or numeric string
selects by id (`Number.isNaN(Number(x))` false); any other string selects by
name. -/
inductive RoomSel where
  | missing
  | byName (s : String)
  | byId (n : Int)
  deriving Repr, DecidableEq

/-- The body of a `RequestOverride` payload. -/
structure OverridePayload where
  Type' : String
  DurationMinutes : Option Rat
  SetPoint : Option Rat
  Originator : Option String
  deriving Repr, DecidableEq

/-- One PATCH pushed onto the `patches` array of `setRoomMode`: its target
URL and its payload (either a bare `Mode` or a `RequestOverride`). -/
structure Patch where
  url : String
  Mode : Option String
  RequestOverride : Option OverridePayload
  deriving Repr, DecidableEq

/-- What the `setRoomMode` promise settles with. -/
inductive RMResult where
  | rejInvalidRoomArg
  | rejNoMode
  | rejFullFetchFailed (status : Nat)
  | rejTypeError
  | rejInvalidRoom
  | rejInvalidMode
  | rejSendFailed
  | resolved (numResults : Nat)
  deriving Repr, DecidableEq

/-- The temperature limiting block of `setRoomMode` (lines 693-702): applied
unless the request is exactly −20 (off); first raise below-minimum values to
`TEMP_MINIMUM`, then lower values above `settings.maxBoost` to that ceiling,
logging an informational message for each adjustment. -/
def clampBoostTemp (maxBoost t : Rat) : Rat × List LogMsg :=
  if t ≠ TEMP_OFF then
    let p1 : Rat × List LogMsg :=
      if t < TEMP_MINIMUM then (TEMP_MINIMUM, [.infoTempTooLow t]) else (t, [])
    if p1.1 > maxBoost then (maxBoost, p1.2 ++ [.infoTempTooHigh p1.1]) else p1
  else (t, [])

/-- Function `setMaxBoost(maxBoost)`: cap at `TEMP_MAXIMUM` with a warning, then store
in settings and return the stored value.  (The source's not-a-number branch
is unrepresentable here: the model's argument is already a number.) -/
def setMaxBoost (maxBoost : Rat) (st : WiserState) :
    WiserState × Rat × List LogMsg :=
  if maxBoost > TEMP_MAXIMUM then
    ({ st with maxBoost := TEMP_MAXIMUM }, TEMP_MAXIMUM, [.warnMaxBoostTooHigh])
  else
    ({ st with maxBoost := maxBoost }, maxBoost, [])

/-- The `servicePaths['rooms']` prefix plus the room id. -/
def roomUrl (id : Int) : String := "/data/domain/Room/" ++ toString id

/-- The override-cancellation payload pushed for every mode except `boost`. -/
def cancelBoostPatch (url : String) : Patch :=
  { url := url, Mode := none,
    RequestOverride := some { Type' := "None", DurationMinutes := some 0,
                              SetPoint := some 0, Originator := some "App" } }

/-- Function `setRoomMode(roomIdOrName, mode, boostTemp, boostDuration)`.
Validation: reject on a missing room argument, then on a missing mode.  Then
`await getFull()` — since `getFull` resolves its transport errors, the
`catch` that would reject with the `Get Full failed.` error object can never
fire, and execution continues with whatever `saved` holds.  The room is then
resolved by id or name; if `saved` is still `undefined` that lookup throws an
uncaught `TypeError` (rejecting the promise with it), and an unresolved room
rejects with the invalid-room error.  The boost temperature is clamped, the
mode switch builds the pre-step and primary payloads, a cancellation patch is
added for every mode except `boost`, and all patches are submitted together;
`sendOk` says whether `axios.all` resolved. -/
def setRoomMode (st : WiserState) (fetch : FetchOutcome) (sel : RoomSel)
    (mode : String) (boostTemp : Rat) (boostDuration : Rat) (sendOk : Bool) :
    WiserState × RMResult × List Patch :=
  match sel with
  | .missing => (st, .rejInvalidRoomArg, [])
  | _ =>
    if mode = "" then (st, .rejNoMode, [])
    else
      let gf := getFull st fetch
      let st1 := gf.1
      let roomExc :=
        match sel with
        | .missing => Except.error JsError.typeError
        | .byName n => getRoomByName st1.saved n
        | .byId i => getRoom st1.saved i
      match roomExc with
      | .error _ => (st1, .rejTypeError, [])
      | .ok (none, _) => (st1, .rejInvalidRoom, [])
      | .ok (some room, _) =>
        let url := roomUrl room.id
        let ct := (clampBoostTemp st1.maxBoost boostTemp).1
        let modeL := toLowerCase mode
        let branches : Option (List Patch × Patch) :=
          if modeL = "manual" then
            let sp :=
              if room.ScheduledSetPoint > toWiserTemp ct then room.ScheduledSetPoint
              else toWiserTemp ct
            some ([{ url := url, Mode := some "Manual", RequestOverride := none }],
                  { url := url, Mode := none,
                    RequestOverride := some { Type' := "Manual", DurationMinutes := none,
                                              SetPoint := some sp, Originator := none } })
          else if modeL = "set" then
            some ([],
                  { url := url, Mode := none,
                    RequestOverride := some { Type' := "Manual", DurationMinutes := none,
                                              SetPoint := some (toWiserTemp ct),
                                              Originator := none } })
          else if modeL = "boost" then
            some ([],
                  { url := url, Mode := none,
                    RequestOverride := some { Type' := "Manual",
                                              DurationMinutes := some boostDuration,
                                              SetPoint := some (toWiserTemp ct),
                                              Originator := some "App" } })
          else if modeL = "off" then
            some ([{ url := url, Mode := some "Manual", RequestOverride := none }],
                  { url := url, Mode := none,
                    RequestOverride := some { Type' := "Manual", DurationMinutes := none,
                                              SetPoint := some (toWiserTemp TEMP_OFF),
                                              Originator := none } })
          else if modeL = "auto" then
            some ([], { url := url, Mode := some "Auto", RequestOverride := none })
          else none
        match branches with
        | none => (st1, .rejInvalidMode, [])
        | some (prePatches, mainPatch) =>
          let patches :=
            if modeL ≠ "boost" then prePatches ++ [cancelBoostPatch url] else prePatches
          let patches := patches ++ [mainPatch]
          if sendOk then (st1, .resolved patches.length, patches)
          else (st1, .rejSendFailed, patches)

/-- Test fixture: the Office room of the test scripts (`getRoom(8)`). -/
def officeRoom : Room :=
  { id := 8, Name := "Office", ScheduledSetPoint := 180,
    SmartValveIds := [101], RoomStatId := some 200, SmartPlugIds := [] }

/-- Test fixture: a second room. -/
def loungeRoom : Room :=
  { id := 1, Name := "Lounge", ScheduledSetPoint := 160,
    SmartValveIds := [102, 103], RoomStatId := none, SmartPlugIds := [301] }

/-- Test fixture: a `System` entity with live clock fields present. -/
def sysA : SystemInfo :=
  { UnixTime := some (.num 1000), LocalDateAndTime := some (.str "date"),
    rest := [("BrandName", Value.str "WiserHeat")] }

/-- Test fixture: a snapshot holding the two rooms. -/
def snapA : Snapshot := { System := sysA, Room := [loungeRoom, officeRoom] }

/-- Test fixture: a transport failure (HTTP 503). -/
def fetchFail : FetchOutcome := .failure 503

/-- Decidable equality for `Except` results. -/
instance {ε α : Type} [DecidableEq ε] [DecidableEq α] :
    DecidableEq (Except ε α) := fun a b =>
  match a, b with
  | .error e, .error f =>
      if h : e = f then .isTrue (by rw [h]) else .isFalse (by simp [h])
  | .ok x, .ok y =>
      if h : x = y then .isTrue (by rw [h]) else .isFalse (by simp [h])
  | .error _, .ok _ => .isFalse (by simp)
  | .ok _, .error _ => .isFalse (by simp)

/-! ## Helper lemmas -/

/-- The first element surviving a filter is the first element satisfying the
predicate. -/
theorem head?_filter_eq_find? {α : Type} (p : α → Bool) (l : List α) :
    (l.filter p).head? = l.find? p := by
  induction l with
  | nil => rfl
  | cons a t ih =>
      by_cases h : p a <;> simp [List.filter_cons, List.find?_cons, h, ih]

/-- Unfolding of `List.lookup` on a cons cell with a literal pair. -/
theorem lookup_cons_pair {β : Type} (r k : String) (v : β) (es : List (String × β)) :
    ((k, v) :: es).lookup r = if r == k then some v else es.lookup r := by
  show (match r == k with | true => some v | false => es.lookup r) = _
  cases h : r == k <;> simp [h]

/-- Deleting a key from an association list makes its lookup miss. -/
theorem lookup_filter_ne {β : Type} (r : String) (l : List (String × β)) :
    (l.filter (fun p => p.1 ≠ r)).lookup r = none := by
  rw [List.lookup_eq_none_iff]
  intro p hp
  have h1 := List.of_mem_filter hp
  simp only [decide_eq_true_eq] at h1
  simp [bne_iff_ne, Ne.symm h1]

/-- Appending a fresh key to an association list without that key makes its
lookup hit the appended value. -/
theorem lookup_append_fresh {β : Type} (r : String) (t : β)
    (l : List (String × β)) (h : l.lookup r = none) :
    (l ++ [(r, t)]).lookup r = some t := by
  induction l with
  | nil => simp [lookup_cons_pair]
  | cons a tl ih =>
      rw [List.lookup_eq_none_iff] at h
      have ha : (r != a.1) = true := h a (by simp)
      have htl : tl.lookup r = none := by
        rw [List.lookup_eq_none_iff]
        intro p hp
        exact h p (by simp [hp])
      obtain ⟨k, v⟩ := a
      rw [List.cons_append, lookup_cons_pair]
      simp only [bne_iff_ne, ne_eq] at ha
      rw [if_neg (by simpa using ha)]
      exact ih htl

/-- A key absent from an association list stays absent under append: the
key-filter of the appended list is just the appended entry. -/
theorem filter_key_append_fresh {β : Type} (r : String) (t : β)
    (l : List (String × β)) (h : l.lookup r = none) :
    (l ++ [(r, t)]).filter (fun p => p.1 == r) = [(r, t)] := by
  induction l with
  | nil => simp [List.filter_cons]
  | cons a tl ih =>
      rw [List.lookup_eq_none_iff] at h
      have ha : (r != a.1) = true := h a (by simp)
      have htl : tl.lookup r = none := by
        rw [List.lookup_eq_none_iff]
        intro p hp
        exact h p (by simp [hp])
      simp only [bne_iff_ne, ne_eq] at ha
      rw [List.cons_append, List.filter_cons]
      rw [if_neg (by simpa using Ne.symm ha)]
      exact ih htl

/-- Filtering away a key that an association list does not hold keeps the
list intact. -/
theorem filter_ne_of_lookup_none {β : Type} (r : String)
    (l : List (String × β)) (h : l.lookup r = none) :
    l.filter (fun p => p.1 ≠ r) = l := by
  induction l with
  | nil => rfl
  | cons a tl ih =>
      rw [List.lookup_eq_none_iff] at h
      have ha : (r != a.1) = true := h a (by simp)
      have htl : tl.lookup r = none := by
        rw [List.lookup_eq_none_iff]
        intro p hp
        exact h p (by simp [hp])
      simp only [bne_iff_ne, ne_eq] at ha
      rw [List.filter_cons]
      rw [if_pos (by simpa using Ne.symm ha)]
      rw [ih htl]

/-! ## C10 -/

/-- C10: `getFull` never rejects: a transport failure resolves with the
error-only object and leaves the saved snapshot and the device-to-room map
unchanged; only a successful fetch replaces the snapshot and then the map
and emits the full-update event. -/
theorem getFull_never_rejects (st : WiserState) (status : Nat) (d : Snapshot) :
    getFull st (.failure status) = (st, .errObj status, []) ∧
    (getFull st (.failure status)).1.saved = st.saved ∧
    (getFull st (.failure status)).1.roomMap = st.roomMap ∧
    (getFull st (.success d)).1.saved = some d ∧
    (getFull st (.success d)).1.roomMap = doRoomMap d.Room ∧
    (getFull st (.success d)).2.1 = .data d ∧
    (getFull st (.success d)).2.2 = [.wiserFullUpdate d] :=
  ⟨rfl, rfl, rfl, rfl, rfl, rfl, rfl⟩

/-! ## C4 -/

/-- C4: a monitor tick whose fetch fails emits an error notification tagged
with the monitor's ref (after the tick's ping) and changes nothing at all:
the stored previous snapshot is untouched and the repeating interval remains
in `activeTimers`, so the polling loop keeps running. -/
theorem monitorTick_failure_isolated (r : String) (status : Nat)
    (diffOf : Option Snapshot → Snapshot → GenDiff)
    (genView : Snapshot → GenEnts) (st : WiserState) :
    monitorTick r (.failure status) diffOf genView st =
      (st, [.wiserPing r false, .wiserError (some r)]) := rfl

/-! ## C5 -/

/-- C5 (code bug): `setSystemMode` performs no validation of the mode name
at all, and — because the request line reads the undefined identifier
`servicePath` instead of `servicePaths` — every call, with a recognised or
an unrecognised mode alike, throws a `ReferenceError` that its catch turns
into an error-object resolution; no write is ever issued, and the valid call
`setSystemMode('away')` of the test script fails the same way as an invalid
one.  The `SystemOverrideType` table does hold exactly the documented
enumeration. -/
theorem setSystemMode_reference_error :
    setSystemMode "away" = (.errObj .referenceError, []) ∧
    setSystemMode "bogus" = (.errObj .referenceError, []) ∧
    SystemOverrideType "normal" = some 0 ∧
    SystemOverrideType "away" = some 2 ∧
    SystemOverrideType "bootAllRooms" = some 4 ∧
    SystemOverrideType "cancelAllOverrides" = some 5 ∧
    SystemOverrideType "bogus" = none := by
  decide

/-! ## C9 -/

/-- C9 (counterexample): before any successful full fetch (`saved` still
`undefined`), both read-path lookups throw a `TypeError` instead of
returning a not-found indicator — the claim's "never raise, in every client
state" fails. -/
theorem room_lookup_throws_before_fetch :
    getRoom none 8 = .error .typeError ∧
    getRoomByName none "Office" = .error .typeError := by
  decide

/-- C9 (amended): once a full snapshot has been saved, `getRoom` and
`getRoomByName` never raise: each returns the first matching room in
sequence order (or a null indicator), with a warning diagnostic when no room
matches and an ambiguity diagnostic when several match. -/
theorem room_lookups_after_fetch (s : Snapshot) (i : Int) (n : String) :
    getRoom (some s) i =
      .ok (s.Room.find? (fun room => room.id == i),
        if (s.Room.filter (fun room => room.id == i)).length < 1 then
          [.warnRoomIdNotFound i]
        else if (s.Room.filter (fun room => room.id == i)).length > 1 then
          [.warnRoomIdNotUnique i (s.Room.filter (fun room => room.id == i)).length]
        else []) ∧
    getRoomByName (some s) n =
      .ok (s.Room.find? (fun room => room.Name == n),
        if (s.Room.filter (fun room => room.Name == n)).length < 1 then
          [.warnRoomNameNotFound n]
        else if (s.Room.filter (fun room => room.Name == n)).length > 1 then
          [.warnRoomNameNotUnique n (s.Room.filter (fun room => room.Name == n)).length]
        else []) := by
  constructor
  · show (if _ then _ else _) = _
    split
    · rename_i hlt
      have hnil : s.Room.filter (fun room => room.id == i) = [] :=
        List.length_eq_zero.mp (Nat.lt_one_iff.mp hlt)
      rw [← head?_filter_eq_find?, hnil]
      rfl
    · rw [← head?_filter_eq_find?]
  · show (if _ then _ else _) = _
    split
    · rename_i hlt
      have hnil : s.Room.filter (fun room => room.Name == n) = [] :=
        List.length_eq_zero.mp (Nat.lt_one_iff.mp hlt)
      rw [← head?_filter_eq_find?, hnil]
      rfl
    · rw [← head?_filter_eq_find?]

/-! ## Shared facts about `removeMonitor` -/

/-- After `removeMonitor`, no handle is registered under the removed ref. -/
theorem removeMonitor_lookup_none (r : String) (st : WiserState) :
    (removeMonitor r st).1.registry.lookup r = none := by
  cases h : st.registry.lookup r with
  | none => simp [removeMonitor, getMonitorRef, h]
  | some t => simpa [removeMonitor, getMonitorRef, h] using lookup_filter_ne r st.registry

/-- Lemma: `removeMonitor` touches only the timers and the registry. -/
theorem removeMonitor_preserves (r : String) (st : WiserState) :
    (removeMonitor r st).1.nextTimer = st.nextTimer ∧
    (removeMonitor r st).1.prev = st.prev ∧
    (removeMonitor r st).1.saved = st.saved := by
  cases h : st.registry.lookup r <;> simp [removeMonitor, getMonitorRef, h]

/-- Lemma: `removeMonitor` never adds timers: its active set is a sub-collection of
the original. -/
theorem removeMonitor_timers_subset (r : String) (st : WiserState) :
    ∀ t ∈ (removeMonitor r st).1.activeTimers, t ∈ st.activeTimers := by
  cases h : st.registry.lookup r with
  | none => simp [removeMonitor, getMonitorRef, h]
  | some u =>
      intro t ht
      simp only [removeMonitor, getMonitorRef, h] at ht
      exact (List.mem_filter.mp ht).1

/-- Lemma: `objSet` on a key the association list does not hold is a plain append. -/
theorem objSet_fresh {β : Type} (r : String) (t : β) (l : List (String × β))
    (h : l.lookup r = none) : objSet r t l = l ++ [(r, t)] := by
  rw [List.lookup_eq_none_iff] at h
  have hany : l.any (fun p => p.1 == r) = false := by
    rw [List.any_eq_false]
    intro p hp
    have hb := h p hp
    simp only [bne_iff_ne, ne_eq] at hb
    simp [Ne.symm hb]
  unfold objSet
  rw [hany]
  simp

/-- Unfolding of a successful `monitor` call: cancel any prior handle, store
the fetched (stripped) snapshot, create the fresh interval and register it. -/
theorem monitor_success_eq (r : String) (d : Snapshot) (st : WiserState) :
    monitor r (.success d) st =
      ({ (removeMonitor r st).1 with
           saved := some (stripSystem d),
           roomMap := doRoomMap d.Room,
           prev := some (stripSystem d),
           activeTimers := (removeMonitor r st).1.activeTimers ++
             [(removeMonitor r st).1.nextTimer],
           nextTimer := (removeMonitor r st).1.nextTimer + 1,
           registry := objSet r (removeMonitor r st).1.nextTimer
             (removeMonitor r st).1.registry },
       (removeMonitor r st).2 ++ [.wiserFullUpdate d, .wiserPing r true,
         .wiserMonitorRef r (removeMonitor r st).1.nextTimer]) := by
  unfold monitor getFull
  simp

/-! ## C3 -/

/-- C3 (counterexample): in the fresh state, `monitor('x')` with a failing
initial fetch emits a ping and then a `wiserError` that carries NO
`monitorRef` property — the catch handler of the initial run (unlike the
tick's) builds its payload without the ref, so the claimed "error
notification tagged with r" never appears. -/
theorem monitor_initial_failure_untagged :
    (monitor "x" fetchFail initState).2 = [.wiserPing "x" true, .wiserError none] ∧
    Event.wiserError (some "x") ∉ (monitor "x" fetchFail initState).2 := by
  decide

/-- C3 (amended): if the initial fetch of `monitor(r)` fails, an error
notification is emitted — but without the ref tag, and preceded by a
spurious initial ping tagged with `r` — no repeating timer is scheduled, the
previous-snapshot store is untouched, and no handle is registered under `r`
(any pre-existing handle for `r` was already cancelled by the restart
semantics). -/
theorem monitor_initial_failure_clean (st : WiserState) (r : String) (status : Nat) :
    (monitor r (.failure status) st).2 =
      (removeMonitor r st).2 ++ [.wiserPing r true, .wiserError none] ∧
    (monitor r (.failure status) st).1.registry.lookup r = none ∧
    (monitor r (.failure status) st).1.activeTimers =
      (removeMonitor r st).1.activeTimers ∧
    (monitor r (.failure status) st).1.nextTimer = st.nextTimer ∧
    (monitor r (.failure status) st).1.prev = st.prev := by
  have hmon : monitor r (.failure status) st =
      ((removeMonitor r st).1,
       (removeMonitor r st).2 ++ [.wiserPing r true, .wiserError none]) := by
    unfold monitor
    simp [getFull]
  rw [hmon]
  refine ⟨rfl, removeMonitor_lookup_none r st, rfl, ?_, ?_⟩
  · exact (removeMonitor_preserves r st).1
  · exact (removeMonitor_preserves r st).2.1

/-! ## C1 -/

/-- Fixture: a state holding a stale snapshot from an earlier successful
full fetch. -/
def staleState : WiserState :=
  { initState with saved := some snapA, roomMap := doRoomMap snapA.Room }

/-- C1 (code bug): `setRoomMode` does fetch a fresh snapshot before room
resolution, but when that fetch fails the operation does NOT reject with the
"Get Full failed." kind: `getFull` resolves its transport errors, so the
catch wrapping it is dead code.  With a stale snapshot present the call
proceeds against the stale data and still issues its writes (here the
cancel-override pre-write plus the Auto patch), resolving normally; with no
snapshot ever saved the same call instead rejects with the uncaught
`TypeError` from `saved.Room`.  In neither case does `rejFullFetchFailed`
occur or are writes suppressed. -/
theorem setRoomMode_dead_fetch_catch :
    (setRoomMode staleState fetchFail (.byName "Office") "auto" 20 30 true).2 =
      (.resolved 2,
       [cancelBoostPatch (roomUrl 8),
        { url := roomUrl 8, Mode := some "Auto", RequestOverride := none }]) ∧
    (setRoomMode initState fetchFail (.byName "Office") "auto" 20 30 true).2 =
      (.rejTypeError, []) := by
  decide

/-! ## C6 -/

/-- C6: the effective boost temperature of `setRoomMode` is clamped unless
it is exactly the −20 off sentinel: the result is `min (max t 5) maxBoost`;
−20 passes through unclamped with no diagnostic; with the default
configuration (maxBoost = 20) a request of 3 resolves to 5 and with
maxBoost = 19 a request of 35 resolves to 19; `setMaxBoost` stores its
argument hard-capped at 30; and clamping is informational only — the
out-of-range boost request still resolves successfully, with the clamped
setpoint in its single write. -/
theorem clampBoostTemp_policy (m t : Rat) (ht : t ≠ TEMP_OFF) :
    (clampBoostTemp m t).1 = min (max t TEMP_MINIMUM) m ∧
    (∀ m2 : Rat, clampBoostTemp m2 TEMP_OFF = (TEMP_OFF, [])) ∧
    initState.maxBoost = 20 ∧
    (clampBoostTemp initState.maxBoost 3).1 = 5 ∧
    (clampBoostTemp 19 35).1 = 19 ∧
    (∀ (st : WiserState) (m2 : Rat),
        (setMaxBoost m2 st).1.maxBoost =
          if m2 > TEMP_MAXIMUM then TEMP_MAXIMUM else m2) ∧
    (setRoomMode { initState with maxBoost := 19 } (.success snapA) (.byName "Office")
        "boost" 35 30 true).2 =
      (.resolved 1,
       [{ url := roomUrl 8, Mode := none,
          RequestOverride := some { Type' := "Manual", DurationMinutes := some 30,
                                    SetPoint := some 190, Originator := some "App" } }]) := by
  refine ⟨?_, ?_, rfl, by decide, by decide, ?_, ?_⟩
  · simp only [clampBoostTemp, if_pos ht]
    split_ifs <;> simp_all [min_def, max_def] <;> split_ifs <;> first | rfl | linarith
  · intro m2
    simp [clampBoostTemp]
  · intro st m2
    unfold setMaxBoost
    split_ifs <;> rfl
  · simp +decide [setRoomMode, getFull, getRoomByName, snapA, officeRoom, loungeRoom,
      clampBoostTemp, toWiserTemp, initState, roomUrl, TEMP_OFF, TEMP_MINIMUM,
      BOOST_DEFAULT_TEMP]
    norm_num

/-! ## C2 -/

/-- C2: with successive `monitor(r)` calls serialised (each call's initial
fetch completes before the next call, the spec's restart-by-name reading),
calling `monitor(r)` twice leaves exactly one handle registered under `r` —
the second call's timer — the first call's timer is cancelled (gone from the
active set, which holds exactly one instance of the new timer), and the
second call's event trace shows the cancellation (`wiserMonitorRemoved`)
strictly before the registration of the new handle (`wiserMonitorRef`). -/
theorem monitor_restart_single_handle (st : WiserState) (r : String)
    (d1 d2 : Snapshot)
    (hfresh : ∀ t ∈ st.activeTimers, t < st.nextTimer) :
    ((monitor r (.success d2) (monitor r (.success d1) st).1).1.registry.filter
        (fun p => p.1 == r)) = [(r, st.nextTimer + 1)] ∧
    (monitor r (.success d1) st).1.registry.lookup r = some st.nextTimer ∧
    st.nextTimer ∉
      (monitor r (.success d2) (monitor r (.success d1) st).1).1.activeTimers ∧
    ((monitor r (.success d2) (monitor r (.success d1) st).1).1.activeTimers.count
        (st.nextTimer + 1)) = 1 ∧
    (monitor r (.success d2) (monitor r (.success d1) st).1).2 =
      [.wiserMonitorRemoved r, .wiserFullUpdate d2, .wiserPing r true,
       .wiserMonitorRef r (st.nextTimer + 1)] := by
  have hnt1 : (removeMonitor r st).1.nextTimer = st.nextTimer :=
    (removeMonitor_preserves r st).1
  have hlk1 : (removeMonitor r st).1.registry.lookup r = none :=
    removeMonitor_lookup_none r st
  have hreg1 : (monitor r (.success d1) st).1.registry
      = (removeMonitor r st).1.registry ++ [(r, st.nextTimer)] := by
    rw [monitor_success_eq]
    show objSet r (removeMonitor r st).1.nextTimer (removeMonitor r st).1.registry = _
    rw [objSet_fresh _ _ _ hlk1, hnt1]
  have htim1 : (monitor r (.success d1) st).1.activeTimers
      = (removeMonitor r st).1.activeTimers ++ [st.nextTimer] := by
    rw [monitor_success_eq]
    show (removeMonitor r st).1.activeTimers ++ [(removeMonitor r st).1.nextTimer] = _
    rw [hnt1]
  have hnext1 : (monitor r (.success d1) st).1.nextTimer = st.nextTimer + 1 := by
    rw [monitor_success_eq]
    show (removeMonitor r st).1.nextTimer + 1 = _
    rw [hnt1]
  have hlks1 : (monitor r (.success d1) st).1.registry.lookup r = some st.nextTimer := by
    rw [hreg1]
    exact lookup_append_fresh r _ _ hlk1
  have hnm1 : st.nextTimer ∉ (removeMonitor r st).1.activeTimers := fun hmem =>
    lt_irrefl _ (hfresh _ (removeMonitor_timers_subset r st _ hmem))
  have hnm1' : st.nextTimer + 1 ∉ (removeMonitor r st).1.activeTimers := fun hmem =>
    absurd (hfresh _ (removeMonitor_timers_subset r st _ hmem)) (by omega)
  have hrm2 : removeMonitor r (monitor r (.success d1) st).1 =
      ({ (monitor r (.success d1) st).1 with
           activeTimers := (monitor r (.success d1) st).1.activeTimers.filter
             (fun u => u ≠ st.nextTimer),
           registry := (monitor r (.success d1) st).1.registry.filter
             (fun p => p.1 ≠ r) },
       [.wiserMonitorRemoved r]) := by
    unfold removeMonitor getMonitorRef
    rw [hlks1]
  have hreg2 : (removeMonitor r (monitor r (.success d1) st).1).1.registry
      = (removeMonitor r st).1.registry := by
    rw [hrm2]
    show (monitor r (.success d1) st).1.registry.filter (fun p => p.1 ≠ r) = _
    rw [hreg1, List.filter_append, filter_ne_of_lookup_none r _ hlk1]
    simp
  have hfilt : (removeMonitor r st).1.activeTimers.filter
      (fun u => u ≠ st.nextTimer) = (removeMonitor r st).1.activeTimers :=
    List.filter_eq_self.mpr (fun x hx => by
      simp only [decide_eq_true_eq]
      exact fun hEq => hnm1 (hEq ▸ hx))
  have htim2 : (removeMonitor r (monitor r (.success d1) st).1).1.activeTimers
      = (removeMonitor r st).1.activeTimers := by
    rw [hrm2]
    show (monitor r (.success d1) st).1.activeTimers.filter
      (fun u => u ≠ st.nextTimer) = _
    rw [htim1, List.filter_append, hfilt]
    simp
  have hnext2 : (removeMonitor r (monitor r (.success d1) st).1).1.nextTimer
      = st.nextTimer + 1 := by
    rw [(removeMonitor_preserves r (monitor r (.success d1) st).1).1, hnext1]
  have hlk2 : (removeMonitor r (monitor r (.success d1) st).1).1.registry.lookup r
      = none := by
    rw [hreg2]
    exact hlk1
  have hregF : (monitor r (.success d2) (monitor r (.success d1) st).1).1.registry
      = (removeMonitor r st).1.registry ++ [(r, st.nextTimer + 1)] := by
    rw [monitor_success_eq]
    show objSet r (removeMonitor r (monitor r (.success d1) st).1).1.nextTimer
      (removeMonitor r (monitor r (.success d1) st).1).1.registry = _
    rw [objSet_fresh _ _ _ hlk2, hreg2, hnext2]
  have htimF : (monitor r (.success d2) (monitor r (.success d1) st).1).1.activeTimers
      = (removeMonitor r st).1.activeTimers ++ [st.nextTimer + 1] := by
    rw [monitor_success_eq]
    show (removeMonitor r (monitor r (.success d1) st).1).1.activeTimers ++
      [(removeMonitor r (monitor r (.success d1) st).1).1.nextTimer] = _
    rw [htim2, hnext2]
  refine ⟨?_, hlks1, ?_, ?_, ?_⟩
  · rw [hregF]
    exact filter_key_append_fresh r _ _ hlk1
  · rw [htimF]
    intro hmem
    rcases List.mem_append.mp hmem with h | h
    · exact hnm1 h
    · simp at h
  · rw [htimF, List.count_append]
    rw [List.count_eq_zero.mpr hnm1']
    simp
  · rw [monitor_success_eq]
    show (removeMonitor r (monitor r (.success d1) st).1).2 ++
      [.wiserFullUpdate d2, .wiserPing r true,
       .wiserMonitorRef r (removeMonitor r (monitor r (.success d1) st).1).1.nextTimer] = _
    rw [hnext2, hrm2]
    rfl

/-- C2 (witness): the restart property at the fresh state with ref "x" and
two concrete snapshots: the handle registered after the two calls is the
second timer (id 1), and the first timer (id 0) is cancelled. -/
theorem monitor_restart_single_handle_witness :
    ((monitor "x" (.success snapA) (monitor "x" (.success snapA) initState).1).1.registry.filter
        (fun p => p.1 == "x")) = [("x", initState.nextTimer + 1)] :=
  (monitor_restart_single_handle initState "x" snapA snapA (by simp [initState])).1

/-! ## C7 -/

/-- C7: when the room 'Office' is resolvable in the freshly fetched snapshot
and the boost ceiling is at its default of 20, `setRoomMode('Office',
'boost', 19.5, 60)` issues exactly one write, targeted at the Office room's
URL, with payload RequestOverride Type "Manual", DurationMinutes 60,
SetPoint 195, Originator "App" — and no override-cancellation pre-write. -/
theorem setRoomMode_boost_single_write (st : WiserState) (snap : Snapshot)
    (room : Room) (hmb : st.maxBoost = 20)
    (hr : snap.Room.find? (fun rm => rm.Name == "Office") = some room) :
    setRoomMode st (.success snap) (.byName "Office") "boost" ((39 : Rat)/2) 60 true =
      ({ st with saved := some snap, roomMap := doRoomMap snap.Room },
       .resolved 1,
       [{ url := roomUrl room.id, Mode := none,
          RequestOverride := some { Type' := "Manual", DurationMinutes := some 60,
                                    SetPoint := some 195, Originator := some "App" } }]) := by
  have hhead : (snap.Room.filter (fun rm => rm.Name == "Office")).head? = some room := by
    rw [head?_filter_eq_find?]
    exact hr
  have hne : snap.Room.filter (fun rm => rm.Name == "Office") ≠ [] := by
    intro h0
    rw [h0] at hhead
    simp at hhead
  have hlen : ¬ (snap.Room.filter (fun rm => rm.Name == "Office")).length < 1 := by
    simp only [Nat.lt_one_iff, List.length_eq_zero]
    exact hne
  have hroom : getRoomByName (some snap) "Office" =
      .ok (some room,
        if (snap.Room.filter (fun rm => rm.Name == "Office")).length > 1 then
          [.warnRoomNameNotUnique "Office"
            (snap.Room.filter (fun rm => rm.Name == "Office")).length]
        else []) := by
    simp only [getRoomByName]
    rw [if_neg hlen, hhead]
  have hclamp : (clampBoostTemp 20 ((39 : Rat)/2)).1 = (39 : Rat)/2 := by
    norm_num [clampBoostTemp, TEMP_OFF, TEMP_MINIMUM]
  have htw : toWiserTemp ((39 : Rat)/2) = 195 := by
    norm_num [toWiserTemp]
  simp only [setRoomMode, getFull]
  rw [hroom]
  simp only [hmb, hclamp, htw]
  simp +decide [toLowerCase, lowerChar]

/-- C7 (witness): the Office boost scenario run on the concrete fixture
snapshot, with exactly one write carrying setpoint 195. -/
theorem setRoomMode_boost_single_write_witness :
    setRoomMode initState (.success snapA) (.byName "Office") "boost"
      ((39 : Rat)/2) 60 true =
      ({ initState with saved := some snapA, roomMap := doRoomMap snapA.Room },
       .resolved 1,
       [{ url := roomUrl officeRoom.id, Mode := none,
          RequestOverride := some { Type' := "Manual", DurationMinutes := some 60,
                                    SetPoint := some 195, Originator := some "App" } }]) :=
  setRoomMode_boost_single_write initState snapA officeRoom (by decide) (by decide)

/-! ## C8 -/

/-- Any record produced by the diff-deconstruction loop carries a non-empty,
noise-free map of changed fields. -/
theorem mem_processDiff_changes (r : String) (diff : GenDiff)
    (resEnts prevEnts : GenEnts) (roomMap : List (Int × RoomMapEntry))
    (rec : ChangeRecord) (hmem : rec ∈ processDiff r diff resEnts prevEnts roomMap) :
    rec.changes ≠ [] ∧ ∀ p ∈ rec.changes, p.1 ∉ noiseFields := by
  unfold processDiff at hmem
  rcases List.mem_flatMap.mp hmem with ⟨tyItem, htyMem, hrec⟩
  rcases List.mem_filterMap.mp hrec with ⟨ent, hentMem, hent⟩
  by_cases hempty : (stripNoise ent.2).isEmpty
  · rw [if_pos hempty] at hent
    exact absurd hent (by simp)
  · rw [if_neg hempty] at hent
    have hX := Option.some.inj hent
    have hchanges : rec.changes = stripNoise ent.2 := by
      rw [← hX]
    constructor
    · rw [hchanges]
      intro h0
      rw [h0] at hempty
      simp at hempty
    · rw [hchanges]
      intro p hp
      have hf := List.of_mem_filter hp
      simp only [decide_eq_true_eq] at hf
      intro hmemN
      exact hf (by simpa using hmemN)

/-- No record survives for an entity whose field-delta holds only noise
fields. -/
theorem processDiff_noise_only (r ty : String) (i : Nat) (fm : FieldMap)
    (resEnts prevEnts : GenEnts) (rm : List (Int × RoomMapEntry))
    (hnoise : ∀ p ∈ fm, p.1 ∈ noiseFields) :
    processDiff r [(ty, [(i, fm)])] resEnts prevEnts rm = [] := by
  have hstrip : stripNoise fm = [] := by
    unfold stripNoise
    rw [List.filter_eq_nil_iff]
    intro p hp
    simp [hnoise p hp]
  unfold processDiff
  simp [hstrip]

/-- C8: every `wiserChange` notification emitted by a monitor tick carries a
non-empty map of changed fields with the reception-quality and
pending-zigbee noise fields removed; and a field-delta consisting only of
those noise fields yields no notification at all. -/
theorem wiserChange_records_nonempty (r : String) (fetch : FetchOutcome)
    (diffOf : Option Snapshot → Snapshot → GenDiff) (genView : Snapshot → GenEnts)
    (st : WiserState) (rec : ChangeRecord)
    (hmem : Event.wiserChange rec ∈ (monitorTick r fetch diffOf genView st).2) :
    rec.changes ≠ [] ∧ (∀ p ∈ rec.changes, p.1 ∉ noiseFields) ∧
    (∀ (ty : String) (i : Nat) (fm : FieldMap) (resEnts prevEnts : GenEnts)
       (rm : List (Int × RoomMapEntry)),
       (∀ p ∈ fm, p.1 ∈ noiseFields) →
       processDiff r [(ty, [(i, fm)])] resEnts prevEnts rm = []) := by
  cases fetch with
  | failure status =>
      simp [monitorTick, getFull] at hmem
  | success d =>
      simp only [monitorTick, getFull, List.mem_append, List.mem_cons,
        List.not_mem_nil, or_false, List.mem_map, List.mem_singleton,
        Event.wiserChange.injEq, reduceCtorEq, false_or] at hmem
      rcases hmem with ⟨rec2, hrec2, heq⟩
      rw [heq] at hrec2
      rcases mem_processDiff_changes _ _ _ _ _ _ hrec2 with ⟨h1, h2⟩
      exact ⟨h1, h2, fun ty i fm resEnts prevEnts rm h =>
        processDiff_noise_only r ty i fm resEnts prevEnts rm h⟩

/-- Fixture: a one-entry diff on the Room type changing the Mode field. -/
def diffFix : GenDiff := [("Room", [(0, [("Mode", Value.str "Manual")])])]

/-- Fixture: the change record the tick builds from `diffFix` when the
generic entity view is empty. -/
def recFix : ChangeRecord :=
  { monitorRef := "x", type := "Room", idx := 0, id := none,
    changes := [("Mode", Value.str "Manual")], prevFields := [("Mode", none)],
    room := none }

/-- C8 (witness): a concrete tick in which exactly the fixture record is
emitted, and its changed-field map is non-empty. -/
theorem wiserChange_records_nonempty_witness : recFix.changes ≠ [] :=
  (wiserChange_records_nonempty "x" (.success snapA) (fun _ _ => diffFix)
    (fun _ => []) staleState recFix (by decide)).1

/-- C6 (witness): the general clamping identity instantiated at a concrete
in-range call: maxBoost 7, request 12 clamps to 7. -/
theorem clampBoostTemp_policy_witness :
    (clampBoostTemp 7 12).1 = min (max 12 TEMP_MINIMUM) 7 :=
  (clampBoostTemp_policy 7 12 (by norm_num [TEMP_OFF])).1

end NodeDraytonWiser
